import Mathlib

/-!
Verification of the tool-configuration resolver in
`src/helpers/native-tools-manager.ts`.

The module decides, per request, whether native Gemini tools (Google Search,
URL Context) or caller-supplied custom function tools are attached, based on
environment settings, request parameters and the target model id.  All logic
is pure; we embed it as executable Lean functions and prove the stated
properties about them.
-/

namespace NativeToolsManager

/-- Opaque caller-defined function-tool descriptor (`Tool` in the source).
Only its identity matters to the configuration logic. -/
structure Tool where
  id : Nat
deriving DecidableEq, Repr

/-- Native tool descriptor, serialized upstream as `{ google_search: {} }`
or `{ url_context: {} }`; carries no payload. -/
inductive NativeTool where
  | google_search
  | url_context
deriving DecidableEq, Repr

/-- The environment bindings read by `parseEnvironmentSettings`.  Each
variable is an optional string: `none` models a variable that is not set
(`undefined` in the source). -/
structure Env where
  ENABLE_GEMINI_NATIVE_TOOLS : Option String := none
  ENABLE_GOOGLE_SEARCH : Option String := none
  ENABLE_URL_CONTEXT : Option String := none
  GEMINI_TOOLS_PRIORITY : Option String := none
  DEFAULT_TO_NATIVE_TOOLS : Option String := none
  ALLOW_REQUEST_TOOL_CONTROL : Option String := none
  ENABLE_INLINE_CITATIONS : Option String := none
  INCLUDE_GROUNDING_METADATA : Option String := none
  INCLUDE_SEARCH_ENTRY_POINT : Option String := none
deriving DecidableEq

/-- Parsed environment settings (`NativeToolsEnvSettings` in the source).
The `priority` field is a plain string: the source obtains it with an
unchecked type cast from the environment variable, so any string value can
land here, not only the two recognized enum constants. -/
structure NativeToolsEnvSettings where
  enableNativeTools : Bool
  enableGoogleSearch : Bool
  enableUrlContext : Bool
  priority : String
  defaultToNativeTools : Bool
  allowRequestControl : Bool
  enableInlineCitations : Bool
  includeGroundingMetadata : Bool
  includeSearchEntryPoint : Bool
deriving DecidableEq

/-- Per-request parameters (`NativeToolsRequestParams` in the source).  The
tri-state booleans (true / false / absent) are `Option Bool`; the tools
priority is an optional string compared against `"native"` and `"custom"`. -/
structure NativeToolsRequestParams where
  enableNativeTools : Option Bool := none
  enableSearch : Option Bool := none
  enableUrlContext : Option Bool := none
  nativeToolsPriority : Option String := none
deriving DecidableEq

/-- The output record (`NativeToolsConfiguration` in the source).  The
`customTools` field is `none` when the source sets it to `undefined`. -/
structure NativeToolsConfiguration where
  useNativeTools : Bool
  useCustomTools : Bool
  nativeTools : List NativeTool
  customTools : Option (List Tool)
  priority : String
  toolType : String
deriving DecidableEq

/-- Modelled from the spec: the constant
`NATIVE_TOOLS_DEFAULTS.GEMINI_TOOLS_PRIORITY` is imported from
`src/constants`, a file not present in the sources; the spec documents the
tools-priority default as `native_first`. -/
def NATIVE_TOOLS_DEFAULTS_GEMINI_TOOLS_PRIORITY : String := "native_first"

/-- TypeScript `v || d` for an optional string: `undefined` and the empty
string are falsy and give the default; every other string is kept. -/
def orFalsy (v : Option String) (d : String) : String :=
  match v with
  | none => d
  | some s => if s = "" then d else s

/-- `parseEnvironmentSettings` from the source: `=== "true"` flags default
to false, `!== "false"` flags default to true, and the priority string is
taken from the environment with the falsy-or default. -/
def parseEnvironmentSettings (env : Env) : NativeToolsEnvSettings :=
  { enableNativeTools := env.ENABLE_GEMINI_NATIVE_TOOLS == some "true"
    enableGoogleSearch := env.ENABLE_GOOGLE_SEARCH == some "true"
    enableUrlContext := env.ENABLE_URL_CONTEXT == some "true"
    priority := orFalsy env.GEMINI_TOOLS_PRIORITY NATIVE_TOOLS_DEFAULTS_GEMINI_TOOLS_PRIORITY
    defaultToNativeTools := env.DEFAULT_TO_NATIVE_TOOLS != some "false"
    allowRequestControl := env.ALLOW_REQUEST_TOOL_CONTROL != some "false"
    enableInlineCitations := env.ENABLE_INLINE_CITATIONS == some "true"
    includeGroundingMetadata := env.INCLUDE_GROUNDING_METADATA != some "false"
    includeSearchEntryPoint := env.INCLUDE_SEARCH_ENTRY_POINT == some "true" }

/-- Helper: does the first character list start with the second? -/
def charsStartWith : List Char → List Char → Bool
  | _, [] => true
  | [], _ :: _ => false
  | a :: as, b :: bs => a == b && charsStartWith as bs

/-- Helper: does the second character list occur contiguously in the first? -/
def charsContain : List Char → List Char → Bool
  | [], sub => charsStartWith [] sub
  | l@(_ :: rest), sub => charsStartWith l sub || charsContain rest sub

/-- JavaScript `String.prototype.includes`: substring containment. -/
def stringIncludes (s sub : String) : Bool :=
  charsContain s.data sub.data

/-- `isLegacyModel` from the source: `modelId.includes("gemini-1.5")`. -/
def isLegacyModel (modelId : String) : Bool :=
  stringIncludes modelId "gemini-1.5"

/-- `shouldEnableGoogleSearch` from the source: an explicit request value
wins; otherwise fall back to the environment flag. -/
def shouldEnableGoogleSearch (settings : NativeToolsEnvSettings)
    (params : NativeToolsRequestParams) : Bool :=
  match params.enableSearch with
  | some false => false
  | some true => true
  | none => settings.enableGoogleSearch

/-- `shouldEnableUrlContext` from the source: an explicit request value
wins; otherwise fall back to the environment flag. -/
def shouldEnableUrlContext (settings : NativeToolsEnvSettings)
    (params : NativeToolsRequestParams) : Bool :=
  match params.enableUrlContext with
  | some false => false
  | some true => true
  | none => settings.enableUrlContext

/-- `createNativeToolsArray` from the source: push `google_search` when
Search resolves enabled and the model is not legacy; push `url_context`
when URL Context resolves enabled and Search did not resolve enabled. -/
def createNativeToolsArray (settings : NativeToolsEnvSettings)
    (params : NativeToolsRequestParams) (modelId : String) : List NativeTool :=
  let tools : List NativeTool := []
  let tools :=
    if shouldEnableGoogleSearch settings params then
      if !isLegacyModel modelId then tools ++ [NativeTool.google_search] else tools
    else tools
  let tools :=
    if shouldEnableUrlContext settings params && !shouldEnableGoogleSearch settings params then
      tools ++ [NativeTool.url_context]
    else tools
  tools

/-- `createCustomOnlyConfig` from the source. -/
def createCustomOnlyConfig (customTools : List Tool) : NativeToolsConfiguration :=
  { useNativeTools := false
    useCustomTools := true
    nativeTools := []
    customTools := some customTools
    priority := "custom"
    toolType := "custom_only" }

/-- `createSearchAndUrlConfig` from the source: the native/custom tie-break. -/
def createSearchAndUrlConfig (settings : NativeToolsEnvSettings)
    (requestParams : NativeToolsRequestParams) (customTools : List Tool)
    (modelId : String) : NativeToolsConfiguration :=
  let nativeTools := createNativeToolsArray settings requestParams modelId
  if settings.priority == "native_first" || requestParams.nativeToolsPriority == some "native" then
    { useNativeTools := true
      useCustomTools := false
      nativeTools := nativeTools
      customTools := none
      priority := "native"
      toolType := "search_and_url" }
  else if (settings.priority == "custom_first" || requestParams.nativeToolsPriority == some "custom")
      && decide (customTools.length > 0) then
    createCustomOnlyConfig customTools
  else
    { useNativeTools := true
      useCustomTools := false
      nativeTools := nativeTools
      customTools := none
      priority := "native"
      toolType := "search_and_url" }

/-- `determineToolConfiguration` from the source. -/
def determineToolConfiguration (settings : NativeToolsEnvSettings)
    (customTools : List Tool) (requestParams : NativeToolsRequestParams)
    (modelId : String) : NativeToolsConfiguration :=
  let hasCustomTools := decide (customTools.length > 0)
  let nativeToolsAvailable := settings.enableGoogleSearch || settings.enableUrlContext
  if !settings.enableNativeTools then
    createCustomOnlyConfig customTools
  else if settings.allowRequestControl && requestParams.enableNativeTools == some false then
    createCustomOnlyConfig customTools
  else
    let nativeRequestedExplicitly :=
      settings.allowRequestControl &&
        (requestParams.enableNativeTools == some true
          || requestParams.enableSearch == some true
          || requestParams.enableUrlContext == some true)
    let shouldDefaultToNative := settings.defaultToNativeTools && !hasCustomTools
    let shouldConsiderNative := nativeToolsAvailable && (nativeRequestedExplicitly || shouldDefaultToNative)
    if shouldConsiderNative then
      createSearchAndUrlConfig settings requestParams customTools modelId
    else
      createCustomOnlyConfig customTools

/-! Concrete values used in examples, counterexamples and witnesses. -/

/-- Environment settings with every native feature on, priority
`native_first`, request control allowed. -/
def envNativeFirst : NativeToolsEnvSettings :=
  { enableNativeTools := true, enableGoogleSearch := true, enableUrlContext := true,
    priority := "native_first", defaultToNativeTools := true, allowRequestControl := true,
    enableInlineCitations := false, includeGroundingMetadata := true,
    includeSearchEntryPoint := false }

/-- Same as `envNativeFirst` but with priority `custom_first`. -/
def envCustomFirst : NativeToolsEnvSettings :=
  { envNativeFirst with priority := "custom_first" }

/-- Same as `envNativeFirst` but with request control disallowed. -/
def envNoRequestControl : NativeToolsEnvSettings :=
  { envNativeFirst with allowRequestControl := false }

/-- Same as `envNativeFirst` but with URL Context disabled. -/
def envSearchOnly : NativeToolsEnvSettings :=
  { envNativeFirst with enableUrlContext := false }

/-- An environment in which the tools-priority variable holds an
unrecognized non-empty string. -/
def envBogusPriority : Env := { GEMINI_TOOLS_PRIORITY := some "bogus" }

/-- A sample custom tool. -/
def toolA : Tool := ⟨0⟩

/-- The mutual-exclusion invariant on output configurations: native and
custom are never both in use, a native configuration carries no custom
tools, and a custom configuration carries no native tools. -/
def configInvariantHolds (c : NativeToolsConfiguration) : Prop :=
  (c.useNativeTools && c.useCustomTools) = false ∧
  (c.useNativeTools && c.customTools.isSome) = false ∧
  (c.useCustomTools && !c.nativeTools.isEmpty) = false

/-- Every run of the resolver produces either the custom-only configuration
or the native configuration built from `createNativeToolsArray`. -/
theorem determineToolConfiguration_cases (settings : NativeToolsEnvSettings)
    (customTools : List Tool) (params : NativeToolsRequestParams) (modelId : String) :
    determineToolConfiguration settings customTools params modelId =
      createCustomOnlyConfig customTools ∨
    determineToolConfiguration settings customTools params modelId =
      { useNativeTools := true, useCustomTools := false,
        nativeTools := createNativeToolsArray settings params modelId,
        customTools := none, priority := "native", toolType := "search_and_url" } := by
  unfold determineToolConfiguration createSearchAndUrlConfig
  dsimp only
  repeat' split
  all_goals first | exact Or.inl rfl | exact Or.inr rfl

/-- C1: for every environment settings value, custom tools sequence, request
parameters value and model id, the configuration returned by
`determineToolConfiguration` never has `useNativeTools` and `useCustomTools`
both true; when `useNativeTools` is true the `customTools` field is absent,
and when `useCustomTools` is true the `nativeTools` sequence is empty. -/
theorem C1_mutual_exclusion (settings : NativeToolsEnvSettings)
    (customTools : List Tool) (params : NativeToolsRequestParams) (modelId : String) :
    configInvariantHolds (determineToolConfiguration settings customTools params modelId) := by
  rcases determineToolConfiguration_cases settings customTools params modelId with h | h <;>
    rw [h] <;> simp [configInvariantHolds, createCustomOnlyConfig]

/-- C2 counterexample: with the tools-priority variable set to the
unrecognized non-empty string `"bogus"`, the parsed settings keep
`"bogus"` verbatim instead of falling back to `native_first`. -/
theorem C2_counterexample :
    envBogusPriority.GEMINI_TOOLS_PRIORITY = some "bogus" ∧
    "bogus" ≠ "native_first" ∧ "bogus" ≠ "custom_first" ∧
    (parseEnvironmentSettings envBogusPriority).priority ≠ "native_first" := by
  decide

/-- C2 (amended): environment parsing falls back to the default priority
`native_first` only when the tools-priority variable is unset or the empty
string; every non-empty string, recognized or not, is kept verbatim. -/
theorem C2_amended_fallback_only_for_falsy (env : Env) :
    ((env.GEMINI_TOOLS_PRIORITY = none ∨ env.GEMINI_TOOLS_PRIORITY = some "") →
      (parseEnvironmentSettings env).priority = "native_first") ∧
    (∀ s : String, env.GEMINI_TOOLS_PRIORITY = some s → s ≠ "" →
      (parseEnvironmentSettings env).priority = s) := by
  constructor
  · intro h
    rcases h with h | h <;>
      simp [parseEnvironmentSettings, orFalsy, h,
        NATIVE_TOOLS_DEFAULTS_GEMINI_TOOLS_PRIORITY]
  · intro s hs hne
    simp [parseEnvironmentSettings, orFalsy, hs, hne]

/-- C2 witness: the amended fallback rule evaluated at a concrete unset
environment and at the concrete `"bogus"` environment. -/
theorem C2_amended_fallback_only_for_falsy_witness :
    (parseEnvironmentSettings {}).priority = "native_first" ∧
    (parseEnvironmentSettings envBogusPriority).priority = "bogus" :=
  ⟨(C2_amended_fallback_only_for_falsy {}).1 (Or.inl rfl),
   (C2_amended_fallback_only_for_falsy envBogusPriority).2 "bogus" rfl (by decide)⟩

/-- C3: with native tools enabled and request control allowed, a non-empty
custom tools sequence and a request that sets none of `enableNativeTools`,
`enableSearch`, `enableUrlContext` to true, `determineToolConfiguration`
returns the custom-only configuration: default-to-native never auto-enables
native tools when custom tools are present without an explicit request. -/
theorem C3_custom_tools_suppress_default (settings : NativeToolsEnvSettings)
    (customTools : List Tool) (params : NativeToolsRequestParams) (modelId : String)
    (hEnable : settings.enableNativeTools = true)
    (hAllow : settings.allowRequestControl = true)
    (hTools : customTools ≠ [])
    (h1 : params.enableNativeTools ≠ some true)
    (h2 : params.enableSearch ≠ some true)
    (h3 : params.enableUrlContext ≠ some true) :
    determineToolConfiguration settings customTools params modelId =
      createCustomOnlyConfig customTools := by
  unfold determineToolConfiguration
  simp [hEnable, hAllow, h1, h2, h3, List.length_pos.mpr hTools]

/-- C3 witness: the suppression rule evaluated at concrete inputs. -/
theorem C3_custom_tools_suppress_default_witness :
    determineToolConfiguration envNativeFirst [toolA] {} "gemini-2.0" =
      createCustomOnlyConfig [toolA] :=
  C3_custom_tools_suppress_default envNativeFirst [toolA] {} "gemini-2.0"
    (by decide) (by decide) (by decide) (by decide) (by decide) (by decide)

/-- C4: if the environment settings have `enableNativeTools` false, then for
every request, custom tools sequence and model id,
`determineToolConfiguration` returns the custom-only configuration with the
custom tools passed through verbatim. -/
theorem C4_env_disabled_forces_custom_only (settings : NativeToolsEnvSettings)
    (customTools : List Tool) (params : NativeToolsRequestParams) (modelId : String)
    (h : settings.enableNativeTools = false) :
    determineToolConfiguration settings customTools params modelId =
      { useNativeTools := false, useCustomTools := true, nativeTools := [],
        customTools := some customTools, priority := "custom",
        toolType := "custom_only" } := by
  unfold determineToolConfiguration createCustomOnlyConfig
  simp [h]

/-- C4 witness: the rule evaluated at concrete inputs. -/
theorem C4_env_disabled_forces_custom_only_witness :
    determineToolConfiguration { envNativeFirst with enableNativeTools := false }
        [toolA] { enableNativeTools := some true } "gemini-2.0" =
      { useNativeTools := false, useCustomTools := true, nativeTools := [],
        customTools := some [toolA], priority := "custom",
        toolType := "custom_only" } :=
  C4_env_disabled_forces_custom_only _ [toolA] _ "gemini-2.0" (by decide)

/-- C5: with request control allowed, a request that explicitly sets
`enableNativeTools` to false yields the custom-only configuration, for every
environment settings value (in particular even when native tools are enabled
and default-to-native is true). -/
theorem C5_request_disable_forces_custom_only (settings : NativeToolsEnvSettings)
    (customTools : List Tool) (params : NativeToolsRequestParams) (modelId : String)
    (hAllow : settings.allowRequestControl = true)
    (hOff : params.enableNativeTools = some false) :
    determineToolConfiguration settings customTools params modelId =
      createCustomOnlyConfig customTools := by
  unfold determineToolConfiguration
  by_cases hE : settings.enableNativeTools <;> simp [hE, hAllow, hOff]

/-- C5 witness: the rule evaluated at concrete inputs with native tools
enabled and default-to-native true in the environment. -/
theorem C5_request_disable_forces_custom_only_witness :
    determineToolConfiguration envNativeFirst [toolA]
        { enableNativeTools := some false } "gemini-2.0" =
      createCustomOnlyConfig [toolA] :=
  C5_request_disable_forces_custom_only envNativeFirst [toolA] _ "gemini-2.0"
    (by decide) (by decide)

/-- C6: whenever the native/custom tie-break is reached with an empty custom
tools sequence, the result is the native configuration, regardless of the
environment priority and of the request's tools priority; in particular,
with environment priority `custom_first`, request `{enableNativeTools:true}`
and empty custom tools, the resolver outputs the native configuration. -/
theorem C6_empty_custom_tiebreak_native (settings : NativeToolsEnvSettings)
    (params : NativeToolsRequestParams) (modelId : String) :
    createSearchAndUrlConfig settings params [] modelId =
      { useNativeTools := true, useCustomTools := false,
        nativeTools := createNativeToolsArray settings params modelId,
        customTools := none, priority := "native", toolType := "search_and_url" } ∧
    determineToolConfiguration envCustomFirst [] { enableNativeTools := some true }
        "gemini-2.0" =
      { useNativeTools := true, useCustomTools := false,
        nativeTools := [NativeTool.google_search], customTools := none,
        priority := "native", toolType := "search_and_url" } := by
  constructor
  · unfold createSearchAndUrlConfig
    dsimp only
    repeat' split
    all_goals simp_all
  · decide

/-- C7: a model id containing the legacy marker `gemini-1.5` never receives
a `google_search` descriptor from `createNativeToolsArray`, even when Search
resolves to enabled. -/
theorem C7_legacy_never_gets_search (settings : NativeToolsEnvSettings)
    (params : NativeToolsRequestParams) (modelId : String)
    (h : isLegacyModel modelId = true) :
    NativeTool.google_search ∉ createNativeToolsArray settings params modelId := by
  unfold createNativeToolsArray
  dsimp only
  repeat' split
  all_goals simp_all

/-- C7 witness: the legacy rule evaluated at a concrete legacy model id with
Search enabled in the environment. -/
theorem C7_legacy_never_gets_search_witness :
    NativeTool.google_search ∉
      createNativeToolsArray envNativeFirst {} "gemini-1.5-pro" :=
  C7_legacy_never_gets_search envNativeFirst {} "gemini-1.5-pro" (by decide)

/-- C8: the descriptor list never contains both `google_search` and
`url_context`; a `url_context` descriptor is emitted only when Search does
not resolve to enabled. -/
theorem C8_search_and_url_never_both (settings : NativeToolsEnvSettings)
    (params : NativeToolsRequestParams) (modelId : String) :
    ((createNativeToolsArray settings params modelId).contains NativeTool.google_search &&
      (createNativeToolsArray settings params modelId).contains NativeTool.url_context) = false ∧
    ((createNativeToolsArray settings params modelId).contains NativeTool.url_context &&
      shouldEnableGoogleSearch settings params) = false := by
  unfold createNativeToolsArray
  dsimp only
  repeat' split
  all_goals simp_all

/-- C9: the per-feature request overrides are honored by
`createNativeToolsArray` even when the environment disallows request-level
control: `enableSearch=false` suppresses the `google_search` descriptor and
`enableUrlContext=false` suppresses the `url_context` descriptor; moreover
the resolver still reaches the native path with request control disallowed
(via default-to-native) and honors the override there. -/
theorem C9_feature_overrides_ignore_request_control (settings : NativeToolsEnvSettings)
    (params : NativeToolsRequestParams) (modelId : String)
    (_hAllow : settings.allowRequestControl = false) :
    (params.enableSearch = some false →
      NativeTool.google_search ∉ createNativeToolsArray settings params modelId) ∧
    (params.enableUrlContext = some false →
      NativeTool.url_context ∉ createNativeToolsArray settings params modelId) ∧
    determineToolConfiguration envNoRequestControl [] { enableSearch := some false }
        "gemini-2.0" =
      { useNativeTools := true, useCustomTools := false,
        nativeTools := [NativeTool.url_context], customTools := none,
        priority := "native", toolType := "search_and_url" } := by
  refine ⟨?_, ?_, by decide⟩
  · intro h
    unfold createNativeToolsArray shouldEnableGoogleSearch
    rw [h]
    dsimp only
    repeat' split
    all_goals simp_all
  · intro h
    unfold createNativeToolsArray shouldEnableUrlContext
    rw [h]
    dsimp only
    repeat' split
    all_goals simp_all

/-- Request parameters suppressing both native features. -/
def paramsSuppressBoth : NativeToolsRequestParams :=
  { enableSearch := some false, enableUrlContext := some false }

/-- C9 witness: the override rules evaluated at concrete inputs with request
control disallowed and both features enabled in the environment. -/
theorem C9_feature_overrides_ignore_request_control_witness :
    NativeTool.google_search ∉
      createNativeToolsArray envNoRequestControl paramsSuppressBoth "gemini-2.0" ∧
    NativeTool.url_context ∉
      createNativeToolsArray envNoRequestControl paramsSuppressBoth "gemini-2.0" := by
  have h := C9_feature_overrides_ignore_request_control envNoRequestControl
    paramsSuppressBoth "gemini-2.0" rfl
  exact ⟨h.1 rfl, h.2.1 rfl⟩

/-- C10: the resolver can return a configuration with `useNativeTools` true
and an empty descriptor list: first, when Search resolves enabled but the
model is legacy and URL Context does not resolve enabled; second, when the
request explicitly sets `enableNativeTools` true while setting both
`enableSearch` and `enableUrlContext` false. -/
theorem C10_native_with_empty_descriptor_list :
    ((determineToolConfiguration envSearchOnly [] {} "gemini-1.5-pro").useNativeTools = true ∧
      (determineToolConfiguration envSearchOnly [] {} "gemini-1.5-pro").nativeTools = []) ∧
    ((determineToolConfiguration envNativeFirst [toolA]
          { enableNativeTools := some true, enableSearch := some false,
            enableUrlContext := some false } "gemini-2.0").useNativeTools = true ∧
      (determineToolConfiguration envNativeFirst [toolA]
          { enableNativeTools := some true, enableSearch := some false,
            enableUrlContext := some false } "gemini-2.0").nativeTools = []) := by
  decide

end NativeToolsManager
